import Mathlib

/-!
Shallow embedding of the group-call session orchestrator
(`Telegram/SourceFiles/calls/group/calls_group_call.cpp`) and proofs about
its session state machine, join/rejoin protocol, self-update handling,
broadcast part loading, mute propagation and large-video selection.

Network sends, sounds, timers and delegate callbacks are external effects;
the embedding tracks the session fields those functions mutate, plus the
emitted effects a claim needs (toast messages, fired roster events, the
count of initiated join-request chains).
-/

namespace GroupCalls

/-- Lifecycle states of the group call session (the `State` enum; the set of
values is the one used throughout `calls_group_call.cpp`). -/
inductive State
| Waiting
| Joining
| Connecting
| Joined
| HangingUp
| FailedHangingUp
| Ended
| Failed
deriving DecidableEq, Repr

/-- Mute states (the `MuteState` enum). -/
inductive MuteState
| Active
| Muted
| PushToTalk
| ForceMuted
| RaisedHand
deriving DecidableEq, Repr

/-- Connectivity reported by the media engine (the `InstanceState` enum). -/
inductive InstanceState
| Connected
| TransitionToRtc
| Disconnected
deriving DecidableEq, Repr

/-- Connection mode of the media engine (the `InstanceMode` enum),
set via `setInstanceMode`. -/
inductive InstanceMode
| None
| Rtc
| Stream
deriving DecidableEq, Repr

/-- `FinishType` as used by `GroupCall::finish`. The source also has a
`None` value which `finish` rejects with `Expects(type != FinishType::None)`,
so it is omitted here. -/
inductive FinishType
| Ended
| Failed
deriving DecidableEq, Repr

/-- One self roster delta, the fields of `MTPDgroupCallParticipant` read by
`GroupCall::applySelfUpdate`: `is_left`, `vsource`, `is_muted`,
`is_can_self_unmute`, `vraise_hand_rating` (absent encoded as 0, matching
`value_or_empty`). -/
structure SelfDelta where
  left : Bool
  source : Nat
  muted : Bool
  canSelfUnmute : Bool
  raiseHandRating : Nat
deriving DecidableEq, Repr

/-- The session fields of `GroupCall` that the verified operations read or
write.  `joinRequests` counts join-request chains started by
`rejoin` (each `_instance->emitJoinPayload` continuation unconditionally
sends one `phone.JoinGroupCall` request, lines 719-825) and not yet
completed; nothing in the source cancels such a chain.  `partRequests`
holds the MTP request ids of outstanding broadcast-part fetches (the
`requestId` values stored in `_broadcastParts`). -/
structure CallState where
  id : Nat
  joinAsId : Nat
  state : State
  mySsrc : Nat
  mySsrcs : List Nat
  muted : MuteState
  instanceState : InstanceState
  instanceMode : InstanceMode
  instanceTransitioning : Bool
  initialMuteStateSent : Bool
  hadJoinedState : Bool
  queuedSelfUpdates : List SelfDelta
  joinRequests : Nat
  partRequests : List Nat
deriving DecidableEq, Repr

/-- `GroupCall::setState`, lines 504-547.  Only the `_state` assignment is
modelled; the effects bound to the new state (sounds, timers, delegate
notifications, controller destruction) do not touch the modelled fields. -/
def setState (st : CallState) (s : State) : CallState :=
  if st.state = State.Failed then st
  else if st.state = State.FailedHangingUp ∧ s ≠ State.Failed then st
  else if st.state = s then st
  else { st with state := s }

/-- `GroupCall::finish`, lines 1016-1054.  When there is no local ssrc the
terminal state is set directly; otherwise the hanging-up state is set and a
`phone.LeaveGroupCall` request is sent whose completion later applies the
terminal state (that completion is a separate asynchronous step, not part
of this function's immediate effect). -/
def finish (st : CallState) (t : FinishType) : CallState :=
  let finalState := if t = FinishType.Ended then State.Ended else State.Failed
  let hangupState :=
    if t = FinishType.Ended then State.HangingUp else State.FailedHangingUp
  if st.state = State.HangingUp
      ∨ st.state = State.FailedHangingUp
      ∨ st.state = State.Ended
      ∨ st.state = State.Failed then st
  else if st.mySsrc = 0 then setState st finalState
  else setState st hangupState

/-- `GroupCall::hangup`, lines 976-978. -/
def hangup (st : CallState) : CallState :=
  finish st FinishType.Ended

/-- `GroupCall::rejoin(not_null<PeerData*> as)`, lines 702-860.  After the
state guard it clears `_mySsrc` and `_initialMuteStateSent`, sets state
`Joining`, resets the instance mode to `None` (`setInstanceMode`), stores
the chosen identity (`setJoinAs`) and asks the media engine for a join
payload; that continuation unconditionally sends one `phone.JoinGroupCall`
request, counted in `joinRequests`. -/
def rejoin (st : CallState) (asId : Nat) : CallState :=
  if st.state ≠ State.Joining
      ∧ st.state ≠ State.Joined
      ∧ st.state ≠ State.Connecting then st
  else
    let st1 := { st with mySsrc := 0, initialMuteStateSent := false }
    let st2 := setState st1 State.Joining
    { st2 with
      instanceMode := InstanceMode.None
      joinAsId := asId
      joinRequests := st2.joinRequests + 1 }

/-- `GroupCall::rejoin()`, lines 672-674: rejoin with the current
joined-as identity. -/
def rejoinSelf (st : CallState) : CallState :=
  rejoin st st.joinAsId

/-- `GroupCall::setMuted`, lines 1091-1109, restricted to the `_muted`
assignment.  For `Active`/`PushToTalk` the source first asks the delegate
for recording permissions and runs the assignment on grant; permission is
modelled as granted (the delegate is external). -/
def setMuted (st : CallState) (m : MuteState) : CallState :=
  { st with muted := m }

/-- `GroupCall::applySelfUpdate`, lines 1415-1459. -/
def applySelfUpdate (st : CallState) (d : SelfDelta) : CallState :=
  if d.left then
    if d.source = st.mySsrc then
      rejoinSelf (setState st State.Joining)
    else st
  else if d.source ≠ st.mySsrc then
    if ¬ st.mySsrcs.contains d.source then
      hangup { st with mySsrc := 0 }
    else st
  else if d.muted ∧ ¬ d.canSelfUnmute then
    setMuted st
      (if d.raiseHandRating ≠ 0 then MuteState.RaisedHand
        else MuteState.ForceMuted)
  else if st.instanceMode = InstanceMode.Stream then
    rejoinSelf (setState st State.Joining)
  else if st.muted = MuteState.ForceMuted ∨ st.muted = MuteState.RaisedHand then
    setMuted st MuteState.Muted
  else if d.muted ∧ st.muted ≠ MuteState.Muted then
    setMuted st MuteState.Muted
  else st

/-- Loop body of `GroupCall::applyQueuedSelfUpdates`, lines 1401-1413: pop
and apply queued self updates while the state stays `Joined`/`Connecting`.
`applySelfUpdate` never touches the queue, so the recursion follows the
front-erase of the source loop. -/
def applyQueuedSelfUpdatesGo : List SelfDelta → CallState → CallState
  | [], st => st
  | d :: rest, st =>
    if st.state = State.Joined ∨ st.state = State.Connecting then
      applyQueuedSelfUpdatesGo rest
        (applySelfUpdate { st with queuedSelfUpdates := rest } d)
    else { st with queuedSelfUpdates := d :: rest }

/-- `GroupCall::applyQueuedSelfUpdates`, lines 1401-1413. -/
def applyQueuedSelfUpdates (st : CallState) : CallState :=
  applyQueuedSelfUpdatesGo st.queuedSelfUpdates st

/-- `GroupCall::checkFirstTimeJoined`, lines 2043-2050 (the sound and
shortcut effects are external). -/
def checkFirstTimeJoined (st : CallState) : CallState :=
  if st.hadJoinedState ∨ st.state ≠ State.Joined then st
  else { st with hadJoinedState := true }

/-- The `.done` continuation of the `phone.JoinGroupCall` request inside
`GroupCall::rejoin`, lines 825-837: capture the returned ssrc, accumulate
it in `_mySsrcs`, set `Connecting`/`Joined` from the engine connectivity,
re-apply the local self roster entry (external), drain queued self
updates, then run first-time-joined bookkeeping.  One outstanding join
chain completes here. -/
def joinDone (st : CallState) (ssrc : Nat) : CallState :=
  let st1 := { st with
    mySsrc := ssrc
    mySsrcs := st.mySsrcs.insert ssrc
    joinRequests := st.joinRequests - 1 }
  let st2 := setState st1
    (if st1.instanceState = InstanceState.Disconnected
      then State.Connecting else State.Joined)
  checkFirstTimeJoined (applyQueuedSelfUpdates st2)

/-- The categorized toast messages of the join fail handler,
lines 848-856. -/
inductive ToastMessage
| anonymousForbidden
| tooManyParticipants
| notAccessible
| serverError
deriving DecidableEq, Repr

/-- The message selection of the join fail handler, lines 848-856. -/
def classifyJoinError (reason : String) : ToastMessage :=
  if reason = "GROUPCALL_ANONYMOUS_FORBIDDEN" then ToastMessage.anonymousForbidden
  else if reason = "GROUPCALL_PARTICIPANTS_TOO_MUCH" then
    ToastMessage.tooManyParticipants
  else if reason = "GROUPCALL_FORBIDDEN" then ToastMessage.notAccessible
  else ToastMessage.serverError

/-- The `.fail` continuation of the `phone.JoinGroupCall` request inside
`GroupCall::rejoin`, lines 838-857: a duplicate-source error retries the
rejoin and shows nothing; every other error hangs up and shows exactly one
categorized toast. -/
def joinFailApply (st : CallState) (reason : String) :
    CallState × Option ToastMessage :=
  if reason = "GROUPCALL_SSRC_DUPLICATE_MUCH" then (rejoinSelf st, none)
  else (hangup st, some (classifyJoinError reason))

/-- The self-edit request kinds of `GroupCall::sendSelfUpdate`,
lines 2093-2119. -/
inductive SendUpdateType
| Mute
| RaiseHand
| VideoMuted
deriving DecidableEq, Repr

/-- `GroupCall::maybeSendMutedUpdate`, lines 2077-2091: which mute-state
change issues a `phone.EditGroupCallParticipant` self-edit request, and of
which kind; `none` means no network request is sent. -/
def maybeSendMutedUpdate (previous now : MuteState) : Option SendUpdateType :=
  if (previous = MuteState.Active ∧ now = MuteState.Muted)
      ∨ (now = MuteState.Active
        ∧ (previous = MuteState.Muted ∨ previous = MuteState.PushToTalk)) then
    some SendUpdateType.Mute
  else if (now = MuteState.ForceMuted ∧ previous = MuteState.RaisedHand)
      ∨ (now = MuteState.RaisedHand ∧ previous = MuteState.ForceMuted) then
    some SendUpdateType.RaiseHand
  else none

/-- One entry of an incoming `updateGroupCallParticipants` update: the
flags and fields of `MTPDgroupCallParticipant` that
`GroupCall::handleUpdate` reads, with the self-delta fields bundled for
`applySelfUpdate`. -/
structure ParticipantEntry where
  isSelf : Bool
  isMin : Bool
  peerId : Nat
  delta : SelfDelta
deriving DecidableEq, Repr

/-- Observable effects fired while handling a participants update. -/
inductive RosterAction
| otherParticipantState (peerId : Nat)
deriving DecidableEq, Repr

/-- `GroupCall::applyOtherParticipantUpdate`, lines 1461-1477: minimal
entries are ignored; otherwise, when the peer is a current participant of
the call roster (`LookupParticipant`), the per-participant observable is
fired.  The roster is passed as the list of participant peer ids. -/
def applyOtherParticipantUpdate (roster : List Nat) (p : ParticipantEntry) :
    List RosterAction :=
  if p.isMin then []
  else if roster.contains p.peerId then
    [RosterAction.otherParticipantState p.peerId]
  else []

/-- Loop of `GroupCall::handleUpdate(MTPDupdateGroupCallParticipants)`,
lines 1385-1398.  `joined` is computed once before the loop in the
source (line 1383) and stays fixed even if a self update changes the
state mid-loop. -/
def handleParticipantsGo (roster : List Nat) (joined : Bool) :
    List ParticipantEntry → CallState → List RosterAction →
      CallState × List RosterAction
  | [], st, acc => (st, acc)
  | p :: rest, st, acc =>
    let isSelf := p.isSelf ∨ (p.isMin ∧ p.peerId = st.joinAsId)
    if ¬ isSelf then
      handleParticipantsGo roster joined rest st
        (acc ++ applyOtherParticipantUpdate roster p)
    else if joined then
      handleParticipantsGo roster joined rest (applySelfUpdate st p.delta) acc
    else
      handleParticipantsGo roster joined rest
        { st with queuedSelfUpdates := st.queuedSelfUpdates ++ [p.delta] } acc

/-- `GroupCall::handleUpdate(MTPDupdateGroupCallParticipants)`,
lines 1375-1399. -/
def handleUpdateParticipants (roster : List Nat) (st : CallState)
    (callId : Nat) (ps : List ParticipantEntry) :
    CallState × List RosterAction :=
  if st.id ≠ callId then (st, [])
  else
    let joined := st.state = State.Joined ∨ st.state = State.Connecting
    handleParticipantsGo roster joined ps st []

/-- The two completion entry points of `GroupCall::LoadPartTask`. -/
inductive TaskOp
| done
| cancel
deriving DecidableEq, Repr

/-- One atomic step of a `LoadPartTask`: the state is whether the `_done`
callback is still stored; both `done` (lines 240-245) and `cancel`
(lines 247-263) run their whole body under `QMutexLocker lock(&_mutex)`,
so any concurrent history of calls is equivalent to some sequence of these
steps.  The second component records whether this call took the callback
(`done` invokes it, `cancel` clears it). -/
def taskStep (present : Bool) (_ : TaskOp) : Bool × Bool :=
  if present then (false, true) else (false, false)

/-- Run a sequence of `done`/`cancel` calls on one task, counting how many
calls took the callback and how many actually invoked it (a `done` call
that found it present). -/
def runTask : Bool → List TaskOp → Nat × Nat
  | _, [] => (0, 0)
  | present, op :: rest =>
    let s := taskStep present op
    let r := runTask s.1 rest
    (r.1 + (if s.2 then 1 else 0),
      r.2 + (if s.2 ∧ op = TaskOp.done then 1 else 0))

/-- `TimestampFromMsgId`, lines 75-77: `msgId / double(1ULL << 32)`,
modelled over the rationals. -/
def TimestampFromMsgId (msgId : Nat) : ℚ :=
  (msgId : ℚ) / 2 ^ 32

/-- `tgcalls::BroadcastPart::Status` values used by
`GroupCall::broadcastPartStart`. -/
inductive PartStatus
| success
| notReady
| resyncNeeded
deriving DecidableEq, Repr

/-- The `tgcalls::BroadcastPart` delivered by the broadcast-part
continuations. -/
structure BroadcastPart where
  timestampMilliseconds : Int
  responseTimestamp : ℚ
  status : PartStatus
  oggData : List Nat
deriving DecidableEq, Repr

/-- The `.fail` continuation of the `upload.GetFile` request in
`GroupCall::broadcastPartStart`, lines 1733-1752: a join-missing or
forbidden error cancels every outstanding part request, sets `Joining` and
rejoins, delivering nothing; a flood or `TIME_TOO_BIG` error finishes the
task as not-ready; any other error finishes it as resync-needed.
`isFlood` stands for `MTP::IsFloodError` (MTP internals, external to this
file).  `reqId` is the failing request's id, which the completion already
removed from the outstanding set; on a plain failure the `finish` lambda
also erases the task from `_broadcastParts`. -/
def broadcastPartFail (st : CallState) (reqId : Nat) (time : Int)
    (errType : String) (isFlood : Bool) (outerMsgId : Nat) :
    CallState × Option BroadcastPart :=
  if errType = "GROUPCALL_JOIN_MISSING" ∨ errType = "GROUPCALL_FORBIDDEN" then
    (rejoinSelf (setState { st with partRequests := [] } State.Joining), none)
  else
    let status :=
      if isFlood ∨ errType = "TIME_TOO_BIG" then PartStatus.notReady
      else PartStatus.resyncNeeded
    ({ st with partRequests := st.partRequests.erase reqId },
      some ⟨time, TimestampFromMsgId outerMsgId, status, []⟩)

/-- The `.done` continuation of the `upload.GetFile` request in
`GroupCall::broadcastPartStart`, lines 1712-1732: a plain file completes
the task with the raw bytes and the timestamp derived from the outer
message id; a CDN redirect completes it as resync-needed. -/
def broadcastPartDone (st : CallState) (reqId : Nat) (time : Int)
    (bytes : List Nat) (outerMsgId : Nat) (cdnRedirect : Bool) :
    CallState × Option BroadcastPart :=
  if cdnRedirect then
    ({ st with partRequests := st.partRequests.erase reqId },
      some ⟨time, TimestampFromMsgId outerMsgId, PartStatus.resyncNeeded, []⟩)
  else
    ({ st with partRequests := st.partRequests.erase reqId },
      some ⟨time, TimestampFromMsgId outerMsgId, PartStatus.success, bytes⟩)

/-- One roster participant as read by `GroupCall::chooseLargeVideoSsrc`:
its audio ssrc and the speaking/sounding flags. -/
structure Participant where
  peerId : Nat
  ssrc : Nat
  speaking : Bool
  sounding : Bool
deriving DecidableEq, Repr

/-- The `ranges::find` by the `ssrc` projection over the roster
participants, lines 1841-1844. -/
def findBySsrc (participants : List Participant) (ssrc : Nat) :
    Option Participant :=
  participants.find? (fun p => p.ssrc = ssrc)

/-- Loop of `GroupCall::chooseLargeVideoSsrc`, lines 1836-1861, over
`_videoStreamSsrcs`, carrying the `lastSpokeVoiceSsrc`,
`lastSpokeAnythingSsrc` and `anySsrc` accumulators (0 = unset). -/
def chooseLargeVideoSsrcGo (participants : List Participant)
    (videoMuted : List Nat) :
    List Nat → Nat → Nat → Nat → Nat
  | [], voiceSsrc, soundSsrc, anySsrc =>
    if voiceSsrc ≠ 0 then voiceSsrc
    else if soundSsrc ≠ 0 then soundSsrc
    else anySsrc
  | ssrc :: rest, voiceSsrc, soundSsrc, anySsrc =>
    if videoMuted.contains ssrc then
      chooseLargeVideoSsrcGo participants videoMuted rest
        voiceSsrc soundSsrc anySsrc
    else
      match findBySsrc participants ssrc with
      | none =>
        chooseLargeVideoSsrcGo participants videoMuted rest
          voiceSsrc soundSsrc anySsrc
      | some p =>
        chooseLargeVideoSsrcGo participants videoMuted rest
          (if voiceSsrc = 0 ∧ p.speaking then ssrc else voiceSsrc)
          (if soundSsrc = 0 ∧ p.sounding then ssrc else soundSsrc)
          (if anySsrc = 0 then ssrc else anySsrc)

/-- `GroupCall::chooseLargeVideoSsrc`, lines 1827-1862, given the call
roster participants, the video-muted ssrc set and `_videoStreamSsrcs` (in
iteration order).  The `lookupReal() == nullptr` early return corresponds
to calling this with the roster of the looked-up call; when there is no
real call the source returns 0, which coincides with the result on an
empty roster. -/
def chooseLargeVideoSsrc (participants : List Participant)
    (videoMuted : List Nat) (videoStreamSsrcs : List Nat) : Nat :=
  chooseLargeVideoSsrcGo participants videoMuted videoStreamSsrcs 0 0 0

/-- A source is eligible for large-video selection: streaming video (a
member of `_videoStreamSsrcs` is assumed by the caller), not video-muted,
and present in the roster. -/
def eligVideo (participants : List Participant) (videoMuted : List Nat)
    (s : Nat) : Bool :=
  !(videoMuted.contains s) && (findBySsrc participants s).isSome

/-- Eligible and its roster participant is speaking. -/
def eligSpeaking (participants : List Participant) (videoMuted : List Nat)
    (s : Nat) : Bool :=
  !(videoMuted.contains s)
    && (match findBySsrc participants s with
      | some p => p.speaking
      | none => false)

/-- Eligible and its roster participant is sounding. -/
def eligSounding (participants : List Participant) (videoMuted : List Nat)
    (s : Nat) : Bool :=
  !(videoMuted.contains s)
    && (match findBySsrc participants s with
      | some p => p.sounding
      | none => false)

/-- Helper for reasoning about the selection loop accumulators: an already
set accumulator (nonzero) wins, otherwise the first list element
satisfying the predicate (0 when none). -/
def firstOr (p : Nat → Bool) (l : List Nat) (acc : Nat) : Nat :=
  if acc ≠ 0 then acc else (l.find? p).getD 0

/-- The large-video selection rule as the spec words it: the first source
whose participant is speaking, else the first whose participant is
sounding, else any eligible source, else 0.  Stated for the refinement
comparison with `chooseLargeVideoSsrc`. -/
def specLargeVideoChoice (participants : List Participant)
    (videoMuted : List Nat) (l : List Nat) : Nat :=
  match l.find? (eligSpeaking participants videoMuted) with
  | some s => s
  | none =>
    match l.find? (eligSounding participants videoMuted) with
    | some s => s
    | none => (l.find? (eligVideo participants videoMuted)).getD 0

/-- A concrete two-participant roster: ssrc 10 sounding only, ssrc 20
speaking. -/
def demoParticipants : List Participant :=
  [⟨1, 10, false, true⟩, ⟨2, 20, true, true⟩]

/-! Concrete session states used to evaluate the theorems. -/

/-- A concrete session state in the middle of joining call 1 as peer 7. -/
def baseState : CallState :=
  { id := 1
    joinAsId := 7
    state := State.Joining
    mySsrc := 0
    mySsrcs := []
    muted := MuteState.Muted
    instanceState := InstanceState.Disconnected
    instanceMode := InstanceMode.None
    instanceTransitioning := false
    initialMuteStateSent := false
    hadJoinedState := false
    queuedSelfUpdates := []
    joinRequests := 0
    partRequests := [] }

/-- A concrete joined session owning ssrc 555 and, historically,
also 300. -/
def joinedState555 : CallState :=
  { baseState with
    state := State.Joined
    mySsrc := 555
    mySsrcs := [555, 300] }

/-- Claim C1, counterexample: `Ended` is not terminal for `setState` — the
guard in `GroupCall::setState` covers only `Failed` and `FailedHangingUp`,
so a `setState` call from `Ended` does change the state. -/
theorem C1_counterexample :
    (setState { baseState with state := State.Ended } State.Joining).state
        = State.Joining
      ∧ State.Joining ≠ State.Ended := by
  decide

/-- Claim C1 (amended): once the state machine has entered `Failed`, no
`setState` call changes the state; once it has entered `FailedHangingUp`,
every requested transition other than to `Failed` leaves the state
unchanged, and the transition to `Failed` is accepted. -/
theorem C1_amended_terminal (st : CallState) (s : State) :
    (st.state = State.Failed → setState st s = st)
    ∧ (st.state = State.FailedHangingUp → s ≠ State.Failed → setState st s = st)
    ∧ (st.state = State.FailedHangingUp →
        (setState st State.Failed).state = State.Failed) := by
  refine ⟨fun h => ?_, fun h hs => ?_, fun h => ?_⟩
  · simp [setState, h]
  · simp [setState, h, hs]
  · simp [setState, h]

/-- Witness for `C1_amended_terminal` at concrete states. -/
theorem C1_witness :
    setState { baseState with state := State.Failed } State.Joining
        = { baseState with state := State.Failed }
      ∧ setState { baseState with state := State.FailedHangingUp } State.Joining
        = { baseState with state := State.FailedHangingUp }
      ∧ (setState { baseState with state := State.FailedHangingUp }
          State.Failed).state = State.Failed :=
  ⟨(C1_amended_terminal _ State.Joining).1 rfl,
    (C1_amended_terminal _ State.Joining).2.1 rfl (by decide),
    (C1_amended_terminal _ State.Joining).2.2 rfl⟩

/-- Claim C2, counterexample: a second `rejoin` issued while the state is
already `Joining` starts a second join-request chain without cancelling
the first, so two join attempts are outstanding at once. -/
theorem C2_counterexample :
    baseState.state = State.Joining
      ∧ baseState.joinRequests = 0
      ∧ (rejoinSelf (rejoinSelf baseState)).joinRequests = 2 := by
  decide

/-- Claim C2 (amended): `rejoin(identity)` is honored only while the
current state is `Joining`, `Joined` or `Connecting` — invoked in any
other state it returns without changing anything — and when honored it
clears the local ssrc, moves to `Joining` and starts one more join-request
chain (a repetition while already `Joining` therefore adds a second
outstanding join request rather than being absorbed). -/
theorem C2_amended_rejoin (st : CallState) (asId : Nat) :
    (st.state ≠ State.Joining ∧ st.state ≠ State.Joined
        ∧ st.state ≠ State.Connecting →
      rejoin st asId = st)
    ∧ (st.state = State.Joining ∨ st.state = State.Joined
        ∨ st.state = State.Connecting →
      (rejoin st asId).state = State.Joining
        ∧ (rejoin st asId).mySsrc = 0
        ∧ (rejoin st asId).joinRequests = st.joinRequests + 1) := by
  constructor
  · intro h
    simp [rejoin, h.1, h.2.1, h.2.2]
  · intro h
    rcases h with h | h | h <;> simp [rejoin, setState, h]

/-- Witness for `C2_amended_rejoin`: ignored while hanging up, honored
while joining. -/
theorem C2_witness :
    rejoin { baseState with state := State.HangingUp } 7
        = { baseState with state := State.HangingUp }
      ∧ (rejoin baseState 7).state = State.Joining :=
  ⟨(C2_amended_rejoin _ 7).1 (by decide),
    ((C2_amended_rejoin baseState 7).2 (Or.inl rfl)).1⟩

/-- Claim C3: a failed join with the duplicate-source reason retries the
rejoin exactly once (one more join-request chain) and surfaces no
message; every other reason hangs up the call (terminal state directly,
since the failed join left no local ssrc) and surfaces exactly one
categorized toast message. -/
theorem C3_join_fail_outcomes (st : CallState) (reason : String)
    (hstate : st.state = State.Joining) (hssrc : st.mySsrc = 0) :
    (reason = "GROUPCALL_SSRC_DUPLICATE_MUCH" →
      joinFailApply st reason = (rejoinSelf st, none)
        ∧ (rejoinSelf st).joinRequests = st.joinRequests + 1
        ∧ (rejoinSelf st).state = State.Joining)
    ∧ (reason ≠ "GROUPCALL_SSRC_DUPLICATE_MUCH" →
      (joinFailApply st reason).1.state = State.Ended
        ∧ (joinFailApply st reason).2 = some (classifyJoinError reason)) := by
  constructor
  · intro h
    refine ⟨by simp [joinFailApply, h], ?_, ?_⟩ <;>
      simp [rejoinSelf, rejoin, setState, hstate]
  · intro h
    simp [joinFailApply, h, hangup, finish, setState, hstate, hssrc]

/-- Witness for `C3_join_fail_outcomes`: the duplicate-source retry and
the forbidden-call toast at a concrete state. -/
theorem C3_witness :
    joinFailApply baseState "GROUPCALL_SSRC_DUPLICATE_MUCH"
        = (rejoinSelf baseState, none)
      ∧ (joinFailApply baseState "GROUPCALL_FORBIDDEN").2
        = some ToastMessage.notAccessible :=
  ⟨((C3_join_fail_outcomes baseState _ rfl rfl).1 rfl).1,
    (((C3_join_fail_outcomes baseState "GROUPCALL_FORBIDDEN" rfl rfl).2
      (by decide)).2).trans (by decide)⟩

/-- Claim C4: on join success the returned source id becomes the local
ssrc, is accumulated into the historically-owned set, and the state
becomes `Connecting` when the engine reports `Disconnected`, otherwise
`Joined` (stated from the `Joining` state the join request was issued in,
with no queued self updates to drain). -/
theorem C4_join_done (st : CallState) (ssrc : Nat)
    (hstate : st.state = State.Joining)
    (hqueue : st.queuedSelfUpdates = []) :
    (joinDone st ssrc).mySsrc = ssrc
    ∧ (joinDone st ssrc).mySsrcs = st.mySsrcs.insert ssrc
    ∧ (joinDone st ssrc).state =
        (if st.instanceState = InstanceState.Disconnected
          then State.Connecting else State.Joined) := by
  by_cases hd : st.instanceState = InstanceState.Disconnected
  all_goals
    simp [joinDone, setState, hstate, hd, applyQueuedSelfUpdates,
      applyQueuedSelfUpdatesGo, hqueue, checkFirstTimeJoined]
  all_goals split <;> simp

/-- Witness for `C4_join_done`: the spec scenario — join succeeds with
ssrc 555 while the engine reports disconnected, so the state becomes
`Connecting`. -/
theorem C4_witness :
    (joinDone baseState 555).mySsrc = 555
      ∧ (joinDone baseState 555).state = State.Connecting :=
  ⟨(C4_join_done baseState 555 rfl rfl).1,
    ((C4_join_done baseState 555 rfl rfl).2.2).trans (by decide)⟩

/-- Claim C5: for a self roster delta applied while live, a left delta
carrying the local ssrc triggers a rejoin (state set to `Joining`, one
join-request chain started); a not-left delta with a foreign source id is
ignored when that id is historically owned and otherwise hangs the call
up (terminal `Ended` directly, as the local ssrc is cleared first); a
left delta with a foreign source id causes no action. -/
theorem C5_self_update (st : CallState) (d : SelfDelta)
    (hlive : st.state = State.Joined ∨ st.state = State.Connecting) :
    (d.left = true → d.source = st.mySsrc →
      (applySelfUpdate st d).state = State.Joining
        ∧ (applySelfUpdate st d).joinRequests = st.joinRequests + 1)
    ∧ (d.left = true → d.source ≠ st.mySsrc → applySelfUpdate st d = st)
    ∧ (d.left = false → d.source ≠ st.mySsrc →
        d.source ∈ st.mySsrcs →
      applySelfUpdate st d = st)
    ∧ (d.left = false → d.source ≠ st.mySsrc →
        d.source ∉ st.mySsrcs →
      (applySelfUpdate st d).state = State.Ended
        ∧ (applySelfUpdate st d).mySsrc = 0) := by
  refine ⟨fun hl hsrc => ?_, fun hl hsrc => ?_,
    fun hl hsrc hmem => ?_, fun hl hsrc hmem => ?_⟩
  · rcases hlive with h | h <;>
      simp [applySelfUpdate, hl, hsrc, rejoinSelf, rejoin, setState, h]
  · simp [applySelfUpdate, hl, hsrc]
  · simp [applySelfUpdate, hl, hsrc, hmem]
  · rcases hlive with h | h <;>
      simp [applySelfUpdate, hl, hsrc, hmem, hangup, finish, setState, h]

/-- Witness for `C5_self_update`: the spec scenario (left delta with the
local ssrc 555 while joined puts the session back into `Joining`), plus
the stale-echo case at a concrete state. -/
theorem C5_witness :
    (applySelfUpdate joinedState555 ⟨true, 555, false, true, 0⟩).state
        = State.Joining
      ∧ applySelfUpdate joinedState555 ⟨false, 300, false, true, 0⟩
        = joinedState555 :=
  ⟨((C5_self_update _ _ (Or.inl rfl)).1 rfl rfl).1,
    (C5_self_update _ _ (Or.inl rfl)).2.2.1 rfl (by decide) (by decide)⟩

/-- Once the stored callback is gone, every later `done`/`cancel` call on
a `LoadPartTask` is a no-op. -/
theorem runTask_absent (ops : List TaskOp) : runTask false ops = (0, 0) := by
  induction ops with
  | nil => rfl
  | cons op rest ih => simp [runTask, taskStep, ih]

/-- Claim C6: for every interleaving of `LoadPartTask::done` and
`LoadPartTask::cancel` calls (serialized by the task's `_mutex`), the
stored completion callback is taken by at most one call and invoked at
most once, and as soon as any call happens it is taken exactly once —
so exactly one of deliver-result / no-op happens for the later call,
never both and never neither. -/
theorem C6_single_delivery (ops : List TaskOp) :
    (runTask true ops).2 ≤ (runTask true ops).1
    ∧ (runTask true ops).1 ≤ 1
    ∧ (ops ≠ [] → (runTask true ops).1 = 1) := by
  cases ops with
  | nil => exact ⟨le_rfl, by decide, fun h => absurd rfl h⟩
  | cons op rest =>
    refine ⟨?_, ?_, fun _ => ?_⟩ <;>
      cases op <;> simp [runTask, taskStep, runTask_absent]

/-- Witness for `C6_single_delivery`: a cancel racing a network
completion delivers to exactly one of the two. -/
theorem C6_witness :
    (runTask true [TaskOp.cancel, TaskOp.done]).1 = 1 :=
  (C6_single_delivery [TaskOp.cancel, TaskOp.done]).2.2 (by decide)

/-- Claim C8, counterexample: the change `Active → PushToTalk` is one of
the claimed `Active ↔ PushToTalk` transitions, yet
`maybeSendMutedUpdate` issues no self-edit request for it (only
`PushToTalk → Active` is covered by the send conditions). -/
theorem C8_counterexample :
    maybeSendMutedUpdate MuteState.Active MuteState.PushToTalk = none := by
  decide

/-- Claim C8 (amended): exactly the directed transitions
`Active → Muted`, `Muted → Active`, `PushToTalk → Active`,
`ForceMuted → RaisedHand` and `RaisedHand → ForceMuted` issue a self-edit
network request; every other pair of mute states (including
`Active → PushToTalk`) is applied purely locally with no request sent. -/
theorem C8_amended_mute_transitions (previous now : MuteState) :
    (maybeSendMutedUpdate previous now).isSome = true ↔
      ((previous, now) = (MuteState.Active, MuteState.Muted)
        ∨ (previous, now) = (MuteState.Muted, MuteState.Active)
        ∨ (previous, now) = (MuteState.PushToTalk, MuteState.Active)
        ∨ (previous, now) = (MuteState.ForceMuted, MuteState.RaisedHand)
        ∨ (previous, now) = (MuteState.RaisedHand, MuteState.ForceMuted)) := by
  cases previous <;> cases now <;> decide

/-- Claim C10: a participants roster update for a different call id
leaves the whole session state unchanged and fires no roster event — no
entry is applied, no self update queued, no state change. -/
theorem C10_foreign_call_ignored (roster : List Nat) (st : CallState)
    (callId : Nat) (ps : List ParticipantEntry) (h : st.id ≠ callId) :
    handleUpdateParticipants roster st callId ps = (st, []) := by
  simp [handleUpdateParticipants, h]

/-- Witness for `C10_foreign_call_ignored`: an update for call 2 reaching
the session of call 1 does nothing, even with a self entry inside. -/
theorem C10_witness :
    handleUpdateParticipants [] baseState 2
        [⟨true, false, 7, ⟨true, 555, false, true, 0⟩⟩]
      = (baseState, []) :=
  C10_foreign_call_ignored [] baseState 2
    [⟨true, false, 7, ⟨true, 555, false, true, 0⟩⟩] (by decide)

/-- Claim C7: the broadcast-part fetch outcome is decided exhaustively —
a join-missing or forbidden error cancels every outstanding part request,
puts the session back into `Joining` with one new join-request chain, and
delivers no result for the failing task; a flood or time-too-big error
completes the task as not-ready; every other error completes it as
resync-needed; a successful response completes it with the raw bytes and
the server timestamp derived from the outer message id. -/
theorem C7_broadcast_part_outcomes (st : CallState) (reqId : Nat)
    (time : Int) (errType : String) (isFlood : Bool) (outerMsgId : Nat)
    (bytes : List Nat)
    (hlive : st.state = State.Joined ∨ st.state = State.Connecting) :
    (errType = "GROUPCALL_JOIN_MISSING" ∨ errType = "GROUPCALL_FORBIDDEN" →
      (broadcastPartFail st reqId time errType isFlood
          outerMsgId).1.partRequests = []
        ∧ (broadcastPartFail st reqId time errType isFlood
            outerMsgId).1.state = State.Joining
        ∧ (broadcastPartFail st reqId time errType isFlood
            outerMsgId).1.joinRequests = st.joinRequests + 1
        ∧ (broadcastPartFail st reqId time errType isFlood
            outerMsgId).2 = none)
    ∧ (errType ≠ "GROUPCALL_JOIN_MISSING" → errType ≠ "GROUPCALL_FORBIDDEN" →
        isFlood = true ∨ errType = "TIME_TOO_BIG" →
      (broadcastPartFail st reqId time errType isFlood outerMsgId).2
        = some ⟨time, TimestampFromMsgId outerMsgId, PartStatus.notReady, []⟩)
    ∧ (errType ≠ "GROUPCALL_JOIN_MISSING" → errType ≠ "GROUPCALL_FORBIDDEN" →
        isFlood = false → errType ≠ "TIME_TOO_BIG" →
      (broadcastPartFail st reqId time errType isFlood outerMsgId).2
        = some ⟨time, TimestampFromMsgId outerMsgId,
            PartStatus.resyncNeeded, []⟩)
    ∧ (broadcastPartDone st reqId time bytes outerMsgId false).2
        = some ⟨time, TimestampFromMsgId outerMsgId,
            PartStatus.success, bytes⟩ := by
  refine ⟨fun h => ?_, fun h1 h2 h3 => ?_, fun h1 h2 h3 h4 => ?_, ?_⟩
  · rcases hlive with hs | hs <;>
      simp [broadcastPartFail, h, rejoinSelf, rejoin, setState, hs]
  · simp [broadcastPartFail, h1, h2, h3]
  · simp [broadcastPartFail, h1, h2, h3, h4]
  · simp [broadcastPartDone]

/-- Witness for `C7_broadcast_part_outcomes`: the spec scenario — a
forbidden segment fetch cancels all outstanding part requests and
rejoins — plus the flood-to-not-ready mapping, at a concrete state. -/
theorem C7_witness :
    (broadcastPartFail
        { joinedState555 with partRequests := [4, 5] } 4 77
        "GROUPCALL_FORBIDDEN" false 0).1.partRequests = []
      ∧ (broadcastPartFail
          { joinedState555 with partRequests := [4, 5] } 4 77
          "GROUPCALL_FORBIDDEN" false 0).1.state = State.Joining
      ∧ (broadcastPartFail joinedState555 4 77 "FLOOD_WAIT_3" true 0).2
        = some ⟨77, TimestampFromMsgId 0, PartStatus.notReady, []⟩ :=
  ⟨((C7_broadcast_part_outcomes _ 4 77 "GROUPCALL_FORBIDDEN" false 0 []
      (Or.inl rfl)).1 (Or.inr rfl)).1,
    ((C7_broadcast_part_outcomes _ 4 77 "GROUPCALL_FORBIDDEN" false 0 []
      (Or.inl rfl)).1 (Or.inr rfl)).2.1,
    (C7_broadcast_part_outcomes joinedState555 4 77 "FLOOD_WAIT_3" true 0 []
      (Or.inl rfl)).2.1 (by decide) (by decide) (Or.inl rfl)⟩

/-- One step of the accumulator recurrence behind `firstOr`. -/
theorem firstOr_cons (p : Nat → Bool) (s : Nat) (l : List Nat) (acc : Nat)
    (hs : s ≠ 0) :
    firstOr p (s :: l) acc
      = firstOr p l (if acc = 0 ∧ p s = true then s else acc) := by
  by_cases hp : p s = true
  · by_cases ha : acc = 0
    · simp [firstOr, List.find?_cons_of_pos _ hp, ha, hp, hs]
    · simp [firstOr, List.find?_cons_of_pos _ hp, ha, hp]
  · have hp2 : ¬ p s := by simpa using hp
    simp [firstOr, List.find?_cons_of_neg _ hp2, hp]

/-- The selection loop of `chooseLargeVideoSsrc` computes, for each of the
three accumulators, the accumulator itself when already set, otherwise the
first matching source of the remaining list. -/
theorem chooseLargeVideoSsrcGo_spec (ps : List Participant) (vm : List Nat)
    (l : List Nat) : ∀ voice sound anyS : Nat, (∀ s ∈ l, s ≠ 0) →
    chooseLargeVideoSsrcGo ps vm l voice sound anyS =
      (if firstOr (eligSpeaking ps vm) l voice ≠ 0 then
        firstOr (eligSpeaking ps vm) l voice
      else if firstOr (eligSounding ps vm) l sound ≠ 0 then
        firstOr (eligSounding ps vm) l sound
      else firstOr (eligVideo ps vm) l anyS) := by
  induction l with
  | nil =>
    intro voice sound anyS _
    by_cases hv : voice = 0 <;> by_cases hw : sound = 0 <;>
      by_cases ha : anyS = 0 <;>
      simp [chooseLargeVideoSsrcGo, firstOr, hv, hw, ha]
  | cons s rest ih =>
    intro voice sound anyS h0
    have hs : s ≠ 0 := h0 s (List.mem_cons_self s rest)
    have hrest : ∀ x ∈ rest, x ≠ 0 :=
      fun x hx => h0 x (List.mem_cons_of_mem s hx)
    rw [firstOr_cons _ _ _ _ hs, firstOr_cons _ _ _ _ hs,
      firstOr_cons _ _ _ _ hs]
    by_cases hvm : vm.contains s
    · have hvm2 : s ∈ vm := by simpa using hvm
      have e1 : eligSpeaking ps vm s = false := by
        simp [eligSpeaking, hvm2]
      have e2 : eligSounding ps vm s = false := by
        simp [eligSounding, hvm2]
      have e3 : eligVideo ps vm s = false := by
        simp [eligVideo, hvm2]
      simp only [chooseLargeVideoSsrcGo, hvm, if_true, e1, e2, e3]
      rw [ih _ _ _ hrest]
      simp
    · have hvm2 : s ∉ vm := by simpa using hvm
      cases hf : findBySsrc ps s with
      | none =>
        have e1 : eligSpeaking ps vm s = false := by
          simp [eligSpeaking, hvm2, hf]
        have e2 : eligSounding ps vm s = false := by
          simp [eligSounding, hvm2, hf]
        have e3 : eligVideo ps vm s = false := by
          simp [eligVideo, hvm2, hf]
        simp only [chooseLargeVideoSsrcGo, hvm, if_false, hf, e1, e2, e3]
        rw [ih _ _ _ hrest]
        simp
      | some part =>
        have e1 : eligSpeaking ps vm s = part.speaking := by
          simp [eligSpeaking, hvm2, hf]
        have e2 : eligSounding ps vm s = part.sounding := by
          simp [eligSounding, hvm2, hf]
        have e3 : eligVideo ps vm s = true := by
          simp [eligVideo, hvm2, hf]
        rw [show chooseLargeVideoSsrcGo ps vm (s :: rest) voice sound anyS
            = chooseLargeVideoSsrcGo ps vm rest
              (if voice = 0 ∧ part.speaking then s else voice)
              (if sound = 0 ∧ part.sounding then s else sound)
              (if anyS = 0 then s else anyS) from by
          simp [chooseLargeVideoSsrcGo, hvm2, hf]]
        rw [ih _ _ _ hrest]
        simp [e1, e2, e3]

/-- Refinement: on nonzero source ids, `chooseLargeVideoSsrc` computes
exactly the spec-side speak-else-sound-else-any-else-0 selection. -/
theorem chooseLargeVideoSsrc_eq_spec (ps : List Participant) (vm : List Nat)
    (l : List Nat) (h0 : ∀ s ∈ l, s ≠ 0) :
    chooseLargeVideoSsrc ps vm l = specLargeVideoChoice ps vm l := by
  rw [chooseLargeVideoSsrc, chooseLargeVideoSsrcGo_spec ps vm l 0 0 0 h0]
  unfold specLargeVideoChoice
  cases hf : l.find? (eligSpeaking ps vm) with
  | some a =>
    have ha : a ≠ 0 := h0 a (List.mem_of_find?_eq_some hf)
    simp [firstOr, hf, ha]
  | none =>
    cases hg : l.find? (eligSounding ps vm) with
    | some b =>
      have hb : b ≠ 0 := h0 b (List.mem_of_find?_eq_some hg)
      simp [firstOr, hf, hg, hb]
    | none => simp [firstOr, hf, hg]

/-- Speaking eligibility implies video eligibility. -/
theorem eligSpeaking_imp_eligVideo (ps : List Participant) (vm : List Nat)
    (s : Nat) (h : eligSpeaking ps vm s = true) : eligVideo ps vm s = true := by
  revert h
  cases hf : findBySsrc ps s with
  | none => simp [eligSpeaking, hf]
  | some part =>
    simp only [eligSpeaking, eligVideo, hf, Option.isSome_some,
      Bool.and_true, Bool.and_eq_true]
    exact fun h => h.1

/-- Sounding eligibility implies video eligibility. -/
theorem eligSounding_imp_eligVideo (ps : List Participant) (vm : List Nat)
    (s : Nat) (h : eligSounding ps vm s = true) : eligVideo ps vm s = true := by
  revert h
  cases hf : findBySsrc ps s with
  | none => simp [eligSounding, hf]
  | some part =>
    simp only [eligSounding, eligVideo, hf, Option.isSome_some,
      Bool.and_true, Bool.and_eq_true]
    exact fun h => h.1

/-- Claim C9: over the sources currently streaming video (given in
iteration order, all nonzero), not video-muted and present in the roster,
`chooseLargeVideoSsrc` returns a source whose participant is speaking if
one exists, otherwise one whose participant is sounding if one exists,
otherwise any such eligible source, and 0 when there are none. -/
theorem C9_choose_large_video (ps : List Participant) (vm : List Nat)
    (l : List Nat) (h0 : ∀ s ∈ l, s ≠ 0) :
    ((∃ s ∈ l, eligSpeaking ps vm s = true) →
      chooseLargeVideoSsrc ps vm l ∈ l
        ∧ eligSpeaking ps vm (chooseLargeVideoSsrc ps vm l) = true)
    ∧ ((∀ s ∈ l, eligSpeaking ps vm s = false) →
        (∃ s ∈ l, eligSounding ps vm s = true) →
      chooseLargeVideoSsrc ps vm l ∈ l
        ∧ eligSounding ps vm (chooseLargeVideoSsrc ps vm l) = true)
    ∧ ((∀ s ∈ l, eligSpeaking ps vm s = false) →
        (∀ s ∈ l, eligSounding ps vm s = false) →
        (∃ s ∈ l, eligVideo ps vm s = true) →
      chooseLargeVideoSsrc ps vm l ∈ l
        ∧ eligVideo ps vm (chooseLargeVideoSsrc ps vm l) = true)
    ∧ ((∀ s ∈ l, eligVideo ps vm s = false) →
      chooseLargeVideoSsrc ps vm l = 0) := by
  rw [chooseLargeVideoSsrc_eq_spec ps vm l h0]
  refine ⟨fun hex => ?_, fun hns hex => ?_, fun hns hnd hex => ?_,
    fun hnv => ?_⟩
  · obtain ⟨a, hfa⟩ := Option.isSome_iff_exists.mp
      (List.find?_isSome.mpr (by simpa using hex))
    simp only [specLargeVideoChoice, hfa]
    exact ⟨List.mem_of_find?_eq_some hfa, List.find?_some hfa⟩
  · have h1 : l.find? (eligSpeaking ps vm) = none :=
      List.find?_eq_none.mpr (fun a ha => by simp [hns a ha])
    obtain ⟨b, hfb⟩ := Option.isSome_iff_exists.mp
      (List.find?_isSome.mpr (by simpa using hex))
    simp only [specLargeVideoChoice, h1, hfb]
    exact ⟨List.mem_of_find?_eq_some hfb, List.find?_some hfb⟩
  · have h1 : l.find? (eligSpeaking ps vm) = none :=
      List.find?_eq_none.mpr (fun a ha => by simp [hns a ha])
    have h2 : l.find? (eligSounding ps vm) = none :=
      List.find?_eq_none.mpr (fun a ha => by simp [hnd a ha])
    obtain ⟨c, hfc⟩ := Option.isSome_iff_exists.mp
      (List.find?_isSome.mpr (by simpa using hex))
    simp only [specLargeVideoChoice, h1, h2, hfc, Option.getD_some]
    exact ⟨List.mem_of_find?_eq_some hfc, List.find?_some hfc⟩
  · have h1 : l.find? (eligSpeaking ps vm) = none :=
      List.find?_eq_none.mpr (fun a ha hp =>
        absurd (eligSpeaking_imp_eligVideo ps vm a hp)
          (by simp [hnv a ha]))
    have h2 : l.find? (eligSounding ps vm) = none :=
      List.find?_eq_none.mpr (fun a ha hp =>
        absurd (eligSounding_imp_eligVideo ps vm a hp)
          (by simp [hnv a ha]))
    have h3 : l.find? (eligVideo ps vm) = none :=
      List.find?_eq_none.mpr (fun a ha => by simp [hnv a ha])
    simp [specLargeVideoChoice, h1, h2, h3]

/-- Witness for `C9_choose_large_video`: with ssrc 10 merely sounding and
ssrc 20 speaking, the selection lands on a speaking source. -/
theorem C9_witness :
    chooseLargeVideoSsrc demoParticipants [] [10, 20] ∈ [10, 20]
      ∧ eligSpeaking demoParticipants []
          (chooseLargeVideoSsrc demoParticipants [] [10, 20]) = true :=
  (C9_choose_large_video demoParticipants [] [10, 20] (by decide)).1
    ⟨20, by decide, by decide⟩

end GroupCalls
